import Mathlib

/-!
Verification development for `src/filescooper.py`, a concurrent bulk file
downloader.  The Python source is shallowly embedded below: pure helpers
(`splitext`, `basename`, `allowed_extension`, `get_unique_filename`,
`format_size`, `colorize_status`) become Lean functions; the effectful
`download_file` becomes a function over an explicit per-attempt HTTP oracle
(`env : Nat → HttpResult`) that also records the backoff sleeps, the number
of attempts performed, and the output-directory listing; the result-draining
loop of `main` (which unpacks each future's value into three components)
becomes `processResults`, returning `Except` to model an uncaught Python
exception.  Machine-level concerns that the source delegates to libraries
(the real network, `requests`, thread scheduling) are abstracted by the
oracle; everything the source itself computes is translated directly.
-/

/-- Python `str.rfind` restricted to a one-character needle: the index of the
last occurrence of `c` in `l`, or `-1` when `c` does not occur. -/
def pyRfind : List Char → Char → Int
  | [], _ => -1
  | a :: as, c =>
    let r := pyRfind as c
    if 0 ≤ r then r + 1
    else if a == c then 0 else -1

/-- `os.path.splitext` (posixpath `_splitext` with separator `'/'` and
extension separator `'.'`): split at the last dot, unless every character of
the final path component before that dot is itself a dot (so `".bashrc"`
has no extension). -/
def splitext (p : String) : String × String :=
  let l := p.data
  let sepIndex := pyRfind l '/'
  let dotIndex := pyRfind l '.'
  if sepIndex < dotIndex then
    let d := dotIndex.toNat
    if (List.range d).any (fun i => decide ((sepIndex + 1).toNat ≤ i) && !(l.getD i '.' == '.')) then
      (⟨l.take d⟩, ⟨l.drop d⟩)
    else
      (p, "")
  else (p, "")

/-- `os.path.basename`: everything after the last `'/'` (the whole string
when there is no `'/'`). -/
def basename (p : String) : String :=
  ⟨p.data.drop (pyRfind p.data '/' + 1).toNat⟩

/-- Python `str.lstrip` with a one-character strip set. -/
def pyLstrip (s : String) (c : Char) : String :=
  ⟨s.data.dropWhile (fun a => a == c)⟩

/-- Python format spec `:<w` — left-justify by padding with spaces to
width `w`. -/
def ljust (s : String) (width : Nat) : String :=
  s ++ ⟨List.replicate (width - s.length) ' '⟩

/-- Python truthiness of the optional byte counts `min_size` / `max_size`:
`None` and `0` are falsy (`parse_size` produces a plain `int`, `0` included,
e.g. from `--min-size 0`; negative inputs are out of scope of the claims and
not modelled). -/
def pyTruthy : Option Nat → Bool
  | none => false
  | some n => !(n == 0)

/-- The `Color` palette object of the source (fields as in the Python
class). -/
structure Color where
  BOLD : String
  GREEN : String
  YELLOW : String
  RED : String
  RESET : String
deriving DecidableEq

/-- `Color.__init__`: real ANSI codes when enabled, empty strings when
disabled. -/
def Color.make (enable : Bool) : Color :=
  if enable then ⟨"\x1b[1m", "\x1b[92m", "\x1b[93m", "\x1b[91m", "\x1b[0m"⟩
  else ⟨"", "", "", "", ""⟩

/-- The disabled palette, used by concrete witnesses. -/
def noColor : Color := Color.make false

/-- `colorize_status` from the source. -/
def colorize_status (code : Nat) (color : Color) : String :=
  if 200 ≤ code ∧ code < 300 then color.GREEN ++ toString code ++ color.RESET
  else if 300 ≤ code ∧ code < 400 then color.YELLOW ++ toString code ++ color.RESET
  else color.RED ++ toString code ++ color.RESET

/-- One-decimal rendering of the exact ratio `num / den`.  CPython renders a
float with `:.1f` (round-half-even after binary rounding); the model floors
the exact ratio to one decimal.  The two agree on every value any theorem
below evaluates, and no claim depends on the digits. -/
def fmt1 (num den : Nat) : String :=
  let scaled := num * 10 / den
  toString (scaled / 10) ++ "." ++ toString (scaled % 10)

/-- `format_size` from the source: repeatedly divide by 1024 through
B → KB → MB → GB → TB, falling through to PB, one decimal place. -/
def format_size (num_bytes : Nat) : String :=
  if num_bytes < 1024 then fmt1 num_bytes 1 ++ " B"
  else if num_bytes < 1024 ^ 2 then fmt1 num_bytes 1024 ++ " KB"
  else if num_bytes < 1024 ^ 3 then fmt1 num_bytes (1024 ^ 2) ++ " MB"
  else if num_bytes < 1024 ^ 4 then fmt1 num_bytes (1024 ^ 3) ++ " GB"
  else if num_bytes < 1024 ^ 5 then fmt1 num_bytes (1024 ^ 4) ++ " TB"
  else fmt1 num_bytes (1024 ^ 5) ++ " PB"

/-- Python `str.lower`, modelled as ASCII lowercasing character by
character (which matches `str.lower` on every input considered). -/
def pyLower (s : String) : String :=
  ⟨s.data.map Char.toLower⟩

/-- The extension computed inside `allowed_extension`:
`os.path.splitext(filename)[1].lower().lstrip('.')`. -/
def fileExt (filename : String) : String :=
  pyLstrip (pyLower (splitext filename).2) '.'

/-- `allowed_extension` from the source.  The Python `set` of allowed types
is modelled as a `Finset String`; `allowed_types == {"*"}` is set equality. -/
def allowed_extension (filename : String) (allowed_types : Finset String) : Bool :=
  if allowed_types = {"*"} then true
  else decide (fileExt filename ∈ allowed_types)

/-- The `while os.path.exists(...)` loop of `get_unique_filename`, with the
output directory modelled as its listing.  `fuel` only bounds the recursion;
`get_unique_filename` supplies `existing.length + 1`, which is enough fuel
because the candidate names `base_filename, base_1ext, base_2ext, …` are
pairwise distinct strings. -/
def gufGo (existing : List String) (base ext : String) : Nat → Nat → String → String
  | 0, _, unique => unique
  | fuel + 1, counter, unique =>
    if unique ∈ existing then
      gufGo existing base ext fuel (counter + 1) (base ++ "_" ++ toString counter ++ ext)
    else unique

/-- `get_unique_filename` from the source: starting from `base_filename`,
append `_1`, `_2`, … before the extension until the name is not present in
the output directory. -/
def get_unique_filename (output_dir_files : List String) (base_filename : String) : String :=
  let be := splitext base_filename
  gufGo output_dir_files be.1 be.2 (output_dir_files.length + 1) 1 base_filename

/-- A URL together with the path component `urlparse` (Python stdlib)
extracts from it; the parse itself is library behaviour, recorded as data. -/
structure Url where
  raw : String
  path : String
deriving DecidableEq

/-- An HTTP response as `download_file` consumes it: `status_code` and the
fully buffered body `content` (bytes as naturals; only the length and the
written bytes matter). -/
structure Response where
  status_code : Nat
  content : List Nat
deriving DecidableEq

/-- What one `requests.get` call does on a given attempt: raise a
transport-level exception carrying detail `e`, or deliver a response. -/
inductive HttpResult
  | raises (e : String)
  | responds (r : Response)

/-- The shape of `download_file`'s Python return value: a 3-tuple
`(line, status_code, content_length)` on the success path, a bare string on
every skip / failure path, and `None` when the `for` loop body never runs
(`retries < 1`). -/
inductive DfResult
  | tuple3 (line : String) (status_code : Nat) (content_length : Nat)
  | str (line : String)
  | pyNone
deriving DecidableEq

/-- Observable trace of one `download_file` call: its return value, the
backoff sleeps in order (seconds), the number of attempts performed, and the
output-directory listing afterwards. -/
structure DfTrace where
  result : DfResult
  sleeps : List Nat
  attempts : Nat
  files : List String
deriving DecidableEq

/-- The skip line for a too-small body (source line 110). -/
def tooSmallLine (m : Nat) (url : Url) : String :=
  "[!] Skipped (too small < " ++ format_size m ++ "): " ++ url.raw

/-- The skip line for a too-large body (source line 112). -/
def tooLargeLine (m : Nat) (url : Url) : String :=
  "[!] Skipped (too large > " ++ format_size m ++ "): " ++ url.raw

/-- The skip line for an empty filename (source line 119). -/
def noFilenameLine (url : Url) : String :=
  "[!] Skipped (no filename): " ++ url.raw

/-- The skip line for a disallowed extension (source line 122). -/
def notAllowedLine (url : Url) : String :=
  "[!] Skipped (not allowed type): " ++ url.raw

/-- The failure line (source line 136). -/
def failLine (url : Url) (retries : Nat) (e : String) : String :=
  "[✗] Failed to download " ++ url.raw ++ " after " ++ toString retries ++ " attempt(s): " ++ e

/-- The body of `download_file`'s `try` block once a response has arrived
(source lines 106–131): size filters, filename derivation, extension filter,
collision-free filename, file write.  Returns the Python return value and
the output directory listing afterwards.  Headers, proxies and the random
user-agent choice only shape the outgoing request, which the oracle
abstracts, so they do not appear. -/
def respondCase (url : Url) (output_files : List String) (color : Color)
    (allowed_types : Finset String) (min_size max_size : Option Nat)
    (resp : Response) : DfResult × List String :=
  let status_colored := colorize_status resp.status_code color
  let content_length := resp.content.length
  if pyTruthy min_size && decide (content_length < min_size.getD 0) then
    (.str (tooSmallLine (min_size.getD 0) url), output_files)
  else if pyTruthy max_size && decide (content_length > max_size.getD 0) then
    (.str (tooLargeLine (max_size.getD 0) url), output_files)
  else
    let filename := basename url.path
    if filename = "" then
      (.str (noFilenameLine url), output_files)
    else if !(allowed_extension filename allowed_types) then
      (.str (notAllowedLine url), output_files)
    else
      let filename2 := get_unique_filename output_files filename
      let line := "[✓] " ++ ljust filename2 30 ++ " → " ++ status_colored ++ " (" ++
        format_size content_length ++ ")  (" ++ url.raw ++ ")"
      (.tuple3 line resp.status_code content_length, output_files ++ [filename2])

/-- The retry loop `for attempt in range(1, retries + 1)` of `download_file`.
`remaining` counts the loop iterations left (`download_file` starts it at
`retries` with `attempt = 1`); `sleeps` accumulates backoff sleeps in
reverse; `done` counts attempts performed so far.  On an exception, when
`attempt < retries` the worker sleeps `2 ^ attempt` seconds and retries,
otherwise it returns the failure line. -/
def download_file_go (url : Url) (output_files : List String) (color : Color)
    (allowed_types : Finset String) (min_size max_size : Option Nat)
    (env : Nat → HttpResult) (retries : Nat) :
    Nat → Nat → List Nat → Nat → DfTrace
  | _, 0, sleeps, done => ⟨.pyNone, sleeps.reverse, done, output_files⟩
  | attempt, remaining + 1, sleeps, done =>
    match env attempt with
    | .responds resp =>
      let rf := respondCase url output_files color allowed_types min_size max_size resp
      ⟨rf.1, sleeps.reverse, done + 1, rf.2⟩
    | .raises e =>
      if attempt < retries then
        download_file_go url output_files color allowed_types min_size max_size env retries
          (attempt + 1) remaining (2 ^ attempt :: sleeps) (done + 1)
      else
        ⟨.str (failLine url retries e), sleeps.reverse, done + 1, output_files⟩

/-- `download_file` from the source, over the per-attempt oracle `env`. -/
def download_file (url : Url) (output_files : List String) (color : Color)
    (allowed_types : Finset String) (min_size max_size : Option Nat)
    (env : Nat → HttpResult) (retries : Nat) : DfTrace :=
  download_file_go url output_files color allowed_types min_size max_size env retries
    1 retries [] 0

/-- The accumulator of `main`'s result-draining loop: the `results` list, the
lines written to the log file, and the two numeric totals. -/
structure Agg where
  results : List String
  log_lines : List String
  total_downloaded : Nat
  total_bytes : Nat
deriving DecidableEq

/-- One iteration of `main`'s loop
`result, status, size = future.result()` (source lines 207–213).  A 3-tuple
unpacks as written; a bare string unpacks only when it has exactly three
characters (then `result` is its first character, and the character `status`
never equals `200`); any other string raises `ValueError` and `None` raises
`TypeError`, modelled as `Except.error`. -/
def procOne (agg : Agg) (r : DfResult) : Except String Agg :=
  match r with
  | .tuple3 line status size =>
    .ok { results := agg.results ++ [line]
          log_lines := agg.log_lines ++ [line ++ "\n"]
          total_downloaded :=
            agg.total_downloaded + (if status == 200 && decide (0 < size) then 1 else 0)
          total_bytes :=
            agg.total_bytes + (if status == 200 && decide (0 < size) then size else 0) }
  | .str s =>
    if s.length == 3 then
      let c : String := ⟨s.data.take 1⟩
      .ok { results := agg.results ++ [c]
            log_lines := agg.log_lines ++ [c ++ "\n"]
            total_downloaded := agg.total_downloaded
            total_bytes := agg.total_bytes }
    else .error "ValueError: unpacking a non-3-character string into 3 names"
  | .pyNone => .error "TypeError: cannot unpack None"

/-- `main`'s result-draining loop over the completed outcomes (in completion
order): the first unpacking failure propagates as an uncaught exception. -/
def processResults (rs : List DfResult) : Except String Agg :=
  rs.foldlM procOne ⟨[], [], 0, 0⟩

/-- Python `str.startswith`, character-wise. -/
def pyStartsWith (s pre : String) : Bool :=
  pre.data.isPrefixOf s.data

/-- Source line 214: the rendered success bucket. -/
def successesOf (results : List String) : List String :=
  results.filter (fun r => pyStartsWith r "[✓]")

/-- Source line 215: the rendered skip bucket. -/
def skipsOf (results : List String) : List String :=
  results.filter (fun r => pyStartsWith r "[!]")

/-- Source line 216: the rendered failure bucket. -/
def failuresOf (results : List String) : List String :=
  results.filter (fun r => pyStartsWith r "[✗]")

/-- Whether the draining loop raised (aborting the run before the report). -/
def isError (x : Except String Agg) : Bool :=
  match x with
  | .error _ => true
  | .ok _ => false

/-- The configuration bits of `main` that its pre-pool control flow reads:
the merged URL list (direct arguments then the file's lines) and the two
user-agent flags. -/
structure Args where
  urls : List String
  random_useragent : Bool
  mobile_useragent : Bool
deriving DecidableEq

/-- How a run of `main` ends: abort on the user-agent flag conflict (source
lines 173–175), abort on an empty URL list (lines 184–186), or run the pool
and drain its outcomes. -/
inductive MainOutcome
  | uaConflict (msg : String)
  | noUrls (msg : String)
  | ran (outcomes : List DfResult) (agg : Except String Agg)

/-- `main`'s control flow, with the pool's completed outcomes (in completion
order, scheduler-dependent) supplied as an oracle.  The user-agent conflict
check runs before the URL check and before any task is submitted. -/
def mainModel (args : Args) (poolOutcomes : List DfResult) : MainOutcome :=
  if args.random_useragent && args.mobile_useragent then
    .uaConflict "[!] You cannot use --random-useragent and --mobile-useragent at the same time."
  else if args.urls.isEmpty then
    .noUrls "[!] No URLs provided. Use -u or -f."
  else
    .ran poolOutcomes (processResults poolOutcomes)

/-- The outcomes a run produces (none when it aborted before the pool). -/
def outcomesProduced : MainOutcome → List DfResult
  | .ran os _ => os
  | _ => []

/-- The claim's (spec §8) reading of a filename's extension: the substring
after the last dot, lowercased (empty when there is no dot).  Stated from
the spec's words, to be compared with the source's `fileExt`. -/
def specExtAfterLastDot (s : String) : String :=
  let d := pyRfind s.data '.'
  if d < 0 then "" else pyLower ⟨s.data.drop (d.toNat + 1)⟩

/-- Discriminator: did `download_file` return the success 3-tuple? -/
def isTuple3 : DfResult → Bool
  | .tuple3 _ _ _ => true
  | _ => false

/-- The claim C4's notion of "Skipped for size reasons": the result is the
too-small or the too-large skip line. -/
def SizeSkipped (t : DfResult) (min_size max_size : Option Nat) (url : Url) : Prop :=
  t = .str (tooSmallLine (min_size.getD 0) url) ∨
    t = .str (tooLargeLine (max_size.getD 0) url)

instance (t : DfResult) (mn mx : Option Nat) (url : Url) :
    Decidable (SizeSkipped t mn mx url) :=
  inferInstanceAs (Decidable (_ ∨ _))

/-! ### Helper lemmas -/

/-- `rfind` never returns anything below `-1`. -/
theorem neg_one_le_pyRfind (l : List Char) (c : Char) : -1 ≤ pyRfind l c := by
  induction l with
  | nil => simp [pyRfind]
  | cons a as ih =>
    simp only [pyRfind]
    split
    · omega
    · split <;> omega

/-- `rfind` returns `-1` when the needle does not occur. -/
theorem pyRfind_eq_neg_one (l : List Char) (c : Char) (h : ∀ a ∈ l, a ≠ c) :
    pyRfind l c = -1 := by
  induction l with
  | nil => rfl
  | cons a as ih =>
    have ha : (a == c) = false := by
      simp only [beq_eq_false_iff_ne, ne_eq]
      exact h a (by simp)
    have has : pyRfind as c = -1 := ih (fun x hx => h x (by simp [hx]))
    simp [pyRfind, has, ha]

/-- A string with no dot has no extension under `splitext`. -/
theorem splitext_of_no_dot (g : String) (hg : ∀ c ∈ g.data, c ≠ '.') :
    splitext g = (g, "") := by
  have hd : pyRfind g.data '.' = -1 := pyRfind_eq_neg_one g.data '.' hg
  have hs : -1 ≤ pyRfind g.data '/' := neg_one_le_pyRfind g.data '/'
  simp only [splitext, hd]
  rw [if_neg (by omega)]

/-- `splitext` splits its input: the two components concatenate back to it. -/
theorem splitext_fst_append_snd (p : String) :
    (splitext p).1 ++ (splitext p).2 = p := by
  simp only [splitext]
  split
  · split
    · show (⟨p.data.take _ ++ p.data.drop _⟩ : String) = p
      rw [List.take_append_drop]
    · exact String.append_empty p
  · exact String.append_empty p

/-- Inserting `"_1"` between the two `splitext` components changes the
string: the lengths differ by two. -/
theorem splitext_underscore_ne (b e : String) : b ++ "_1" ++ e ≠ b ++ e := by
  intro h
  have hlen := congrArg String.length h
  have h2 : ("_1" : String).length = 2 := rfl
  simp only [String.length_append, h2] at hlen
  omega

/-! ### C7: collision-free filename resolution -/

/-- C7: resolving a collision-free name for `f` in a directory not containing
`f` returns `f` itself; resolving again once `f` exists returns the name with
`_1` inserted before the (splitext) extension, which differs from `f`, so the
second write never overwrites the first. -/
theorem collision_resolution (existing : List String) (f : String)
    (h1 : f ∉ existing)
    (h2 : (splitext f).1 ++ "_1" ++ (splitext f).2 ∉ existing) :
    get_unique_filename existing f = f ∧
    get_unique_filename (existing ++ [f]) f = (splitext f).1 ++ "_1" ++ (splitext f).2 ∧
    (splitext f).1 ++ "_1" ++ (splitext f).2 ≠ f := by
  have hne : (splitext f).1 ++ "_1" ++ (splitext f).2 ≠ f := by
    intro h
    exact splitext_underscore_ne (splitext f).1 (splitext f).2
      (h.trans (splitext_fst_append_snd f).symm)
  refine ⟨?_, ?_, hne⟩
  · simp [get_unique_filename, gufGo, h1]
  · have hcand : (splitext f).1 ++ "_" ++ toString 1 ++ (splitext f).2 =
        (splitext f).1 ++ "_1" ++ (splitext f).2 := by
      rw [String.append_assoc (splitext f).1 "_" (toString 1)]
      rw [show ("_" : String) ++ toString 1 = "_1" from rfl]
    have hmem : f ∈ existing ++ [f] := by simp
    have hnot1 : (splitext f).1 ++ "_1" ++ (splitext f).2 ∉ existing ++ [f] := by
      simp only [List.mem_append, List.mem_singleton]
      rintro (h | h)
      · exact h2 h
      · exact hne h
    simp only [get_unique_filename]
    rw [show (existing ++ [f]).length + 1 = existing.length + 1 + 1 by simp]
    simp [gufGo, hmem, hcand, hnot1]

/-- C7 witness: in an empty directory `a.js` resolves to itself; once
`a.js` exists it resolves to `a_1.js`. -/
theorem collision_resolution_witness :
    "a.js" ∉ ([] : List String) ∧
    (splitext "a.js").1 ++ "_1" ++ (splitext "a.js").2 ∉ ([] : List String) ∧
    (get_unique_filename [] "a.js" = "a.js" ∧
      get_unique_filename ([] ++ ["a.js"]) "a.js" =
        (splitext "a.js").1 ++ "_1" ++ (splitext "a.js").2 ∧
      (splitext "a.js").1 ++ "_1" ++ (splitext "a.js").2 ≠ "a.js") :=
  ⟨by decide, by decide, collision_resolution [] "a.js" (by decide) (by decide)⟩

/-! ### C8: user-agent flag mutual exclusion -/

/-- C8: with both randomized user-agent modes enabled, `main` aborts with the
explanatory message before any task is submitted, and zero outcomes are
produced. -/
theorem ua_mutual_exclusion (args : Args) (pool : List DfResult)
    (h1 : args.random_useragent = true) (h2 : args.mobile_useragent = true) :
    mainModel args pool =
      .uaConflict
        "[!] You cannot use --random-useragent and --mobile-useragent at the same time." ∧
    outcomesProduced (mainModel args pool) = [] := by
  constructor
  · simp [mainModel, h1, h2]
  · simp [mainModel, h1, h2, outcomesProduced]

/-- C8 witness at a concrete configuration with one URL and both flags. -/
theorem ua_mutual_exclusion_witness :
    (Args.mk ["http://h/a.js"] true true).random_useragent = true ∧
    (Args.mk ["http://h/a.js"] true true).mobile_useragent = true ∧
    (mainModel (Args.mk ["http://h/a.js"] true true) [] =
      .uaConflict
        "[!] You cannot use --random-useragent and --mobile-useragent at the same time." ∧
    outcomesProduced (mainModel (Args.mk ["http://h/a.js"] true true) []) = []) :=
  ⟨rfl, rfl, ua_mutual_exclusion (Args.mk ["http://h/a.js"] true true) [] rfl rfl⟩

/-! ### C9: wildcard is the exact singleton; dotless filenames -/

/-- C9: the wildcard short-circuit fires only on the exact singleton set
containing the star; any set containing the star together with another entry
filters like a non-wildcard set, and a filename with no dot has extension
`""` and is allowed exactly when `""` is a member. -/
theorem wildcard_exact_singleton (ts : Finset String)
    (hstar : "*" ∈ ts) (hne : ts ≠ {"*"}) (f g : String)
    (hg : ∀ c ∈ g.data, c ≠ '.') :
    allowed_extension f ts = decide (fileExt f ∈ ts) ∧
    fileExt g = "" ∧
    allowed_extension g ts = decide (("" : String) ∈ ts) := by
  have hext : fileExt g = "" := by
    simp only [fileExt, splitext_of_no_dot g hg]
    rfl
  refine ⟨by simp [allowed_extension, hne], hext, ?_⟩
  simp [allowed_extension, hne, hext]

/-- C9 witness: the set containing the star and `js`, checked on `a.css`
and on the dotless `README`. -/
theorem wildcard_exact_singleton_witness :
    "*" ∈ ({"*", "js"} : Finset String) ∧
    ({"*", "js"} : Finset String) ≠ {"*"} ∧
    (∀ c ∈ ("README" : String).data, c ≠ '.') ∧
    (allowed_extension "a.css" {"*", "js"} =
        decide (fileExt "a.css" ∈ ({"*", "js"} : Finset String)) ∧
      fileExt "README" = "" ∧
      allowed_extension "README" {"*", "js"} =
        decide (("" : String) ∈ ({"*", "js"} : Finset String))) :=
  ⟨by decide, by decide, by decide,
    wildcard_exact_singleton {"*", "js"} (by decide) (by decide) "a.css" "README" (by decide)⟩

/-! ### C2: retry count and backoff contract -/

/-- One loop iteration of `download_file_go` when the request raises. -/
theorem download_file_go_raises
    (url : Url) (files : List String) (color : Color) (types : Finset String)
    (mn mx : Option Nat) (env : Nat → HttpResult) (retries : Nat)
    (attempt remaining : Nat) (sleeps : List Nat) (done : Nat) (e : String)
    (h : env attempt = HttpResult.raises e) :
    download_file_go url files color types mn mx env retries attempt (remaining + 1)
        sleeps done =
      if attempt < retries then
        download_file_go url files color types mn mx env retries (attempt + 1) remaining
          (2 ^ attempt :: sleeps) (done + 1)
      else ⟨.str (failLine url retries e), sleeps.reverse, done + 1, files⟩ := by
  simp only [download_file_go, h]

/-- One loop iteration of `download_file_go` when a response arrives. -/
theorem download_file_go_responds
    (url : Url) (files : List String) (color : Color) (types : Finset String)
    (mn mx : Option Nat) (env : Nat → HttpResult) (retries : Nat)
    (attempt remaining : Nat) (sleeps : List Nat) (done : Nat) (resp : Response)
    (h : env attempt = HttpResult.responds resp) :
    download_file_go url files color types mn mx env retries attempt (remaining + 1)
        sleeps done =
      ⟨(respondCase url files color types mn mx resp).1, sleeps.reverse, done + 1,
        (respondCase url files color types mn mx resp).2⟩ := by
  simp only [download_file_go, h]

/-- When every attempt raises, the retry loop from attempt `a` with `k + 1`
iterations left performs exactly `k + 1` further attempts, sleeps
`2^a, 2^(a+1), …, 2^(retries-1)` after the non-final ones, and returns the
failure line. -/
theorem download_file_go_all_raise
    (url : Url) (files : List String) (color : Color) (types : Finset String)
    (mn mx : Option Nat) (env : Nat → HttpResult) (retries : Nat) (e : String)
    (henv : ∀ n, env n = HttpResult.raises e) :
    ∀ (k a : Nat) (acc : List Nat) (d : Nat), a + (k + 1) = retries + 1 →
      download_file_go url files color types mn mx env retries a (k + 1) acc d =
        ⟨.str (failLine url retries e),
          acc.reverse ++ (List.range k).map (fun i => 2 ^ (a + i)),
          d + (k + 1), files⟩ := by
  intro k
  induction k with
  | zero =>
    intro a acc d ha
    have haa : a = retries := by omega
    subst haa
    simp [download_file_go, henv a]
  | succ k ih =>
    intro a acc d ha
    have halt : a < retries := by omega
    rw [download_file_go_raises url files color types mn mx env retries a (k + 1) acc d e
      (henv a)]
    rw [if_pos halt]
    rw [ih (a + 1) (2 ^ a :: acc) (d + 1) (by omega)]
    have hf : ((fun i => 2 ^ (a + i)) ∘ Nat.succ) = (fun i => 2 ^ (a + 1 + i)) := by
      funext i
      simp only [Function.comp_apply]
      congr 1
      omega
    have hmap : (List.range (k + 1)).map (fun i => 2 ^ (a + i)) =
        2 ^ a :: (List.range k).map (fun i => 2 ^ (a + 1 + i)) := by
      rw [List.range_succ_eq_map, List.map_cons, List.map_map, hf]
      simp
    rw [hmap, List.reverse_cons]
    congr 1
    all_goals first
      | omega
      | simp [List.append_assoc]

/-- C2: with `retries = r ≥ 1` and a transport exception with detail `e` on
every attempt, `download_file` performs exactly `r` attempts (not `r + 1`),
sleeps `2^1, 2^2, …, 2^(r-1)` seconds (none when `r = 1`), and returns the
failure string carrying the error detail and the URL. -/
theorem retry_contract (retries : Nat) (hr : 1 ≤ retries) (url : Url) (e : String)
    (env : Nat → HttpResult) (henv : ∀ n, env n = HttpResult.raises e)
    (files : List String) (color : Color) (types : Finset String) (mn mx : Option Nat) :
    (download_file url files color types mn mx env retries).attempts = retries ∧
    (download_file url files color types mn mx env retries).result =
      .str ("[✗] Failed to download " ++ url.raw ++ " after " ++ toString retries ++
        " attempt(s): " ++ e) ∧
    (download_file url files color types mn mx env retries).sleeps =
      (List.range (retries - 1)).map (fun i => 2 ^ (i + 1)) ∧
    (download_file url files color types mn mx env retries).sleeps.sum =
      ∑ i in Finset.range (retries - 1), 2 ^ (i + 1) := by
  obtain ⟨k, rfl⟩ : ∃ k, retries = k + 1 := ⟨retries - 1, by omega⟩
  have h := download_file_go_all_raise url files color types mn mx env (k + 1) e henv
    k 1 [] 0 (by omega)
  simp only [download_file]
  rw [h]
  have hmap2 : (List.range k).map (fun i => 2 ^ (1 + i)) =
      (List.range k).map (fun i => 2 ^ (i + 1)) := by
    congr 1
    funext i
    congr 1
    omega
  refine ⟨by simp, rfl, ?_, ?_⟩
  · simp [hmap2]
  · show ([].reverse ++ (List.range k).map (fun i => 2 ^ (1 + i))).sum = _
    rw [List.reverse_nil, List.nil_append, hmap2]
    rw [show k + 1 - 1 = k from rfl]
    rfl

/-- C2 witness: three attempts, all timing out, against a concrete URL. -/
theorem retry_contract_witness :
    1 ≤ 3 ∧
    (∀ n : Nat, (fun _ : Nat => HttpResult.raises "timeout") n = HttpResult.raises "timeout") ∧
    ((download_file ⟨"http://h/a.js", "/a.js"⟩ [] noColor {"js"} none none
        (fun _ => HttpResult.raises "timeout") 3).attempts = 3 ∧
      (download_file ⟨"http://h/a.js", "/a.js"⟩ [] noColor {"js"} none none
          (fun _ => HttpResult.raises "timeout") 3).result =
        .str ("[✗] Failed to download " ++ (Url.mk "http://h/a.js" "/a.js").raw ++
          " after " ++ toString 3 ++ " attempt(s): " ++ "timeout") ∧
      (download_file ⟨"http://h/a.js", "/a.js"⟩ [] noColor {"js"} none none
          (fun _ => HttpResult.raises "timeout") 3).sleeps =
        (List.range (3 - 1)).map (fun i => 2 ^ (i + 1)) ∧
      (download_file ⟨"http://h/a.js", "/a.js"⟩ [] noColor {"js"} none none
          (fun _ => HttpResult.raises "timeout") 3).sleeps.sum =
        ∑ i in Finset.range (3 - 1), 2 ^ (i + 1)) :=
  ⟨by omega, fun n => rfl,
    retry_contract 3 (by omega) ⟨"http://h/a.js", "/a.js"⟩ "timeout"
      (fun _ => HttpResult.raises "timeout") (fun n => rfl) [] noColor {"js"} none none⟩

/-! ### C10: a zero size bound disables its check -/

/-- A configured minimum of `0` takes the same branch as no minimum: both are
falsy in `if min_size and …`. -/
theorem respondCase_min_zero (url : Url) (files : List String) (color : Color)
    (types : Finset String) (mx : Option Nat) (resp : Response) :
    respondCase url files color types (some 0) mx resp =
      respondCase url files color types none mx resp := rfl

/-- A configured maximum of `0` takes the same branch as no maximum. -/
theorem respondCase_max_zero (url : Url) (files : List String) (color : Color)
    (types : Finset String) (mn : Option Nat) (resp : Response) :
    respondCase url files color types mn (some 0) resp =
      respondCase url files color types mn none resp := by
  simp only [respondCase]
  split <;> rfl

/-- The retry loop only reads the size bounds through `respondCase`, so
configurations with identical `respondCase` behaviour produce identical
traces. -/
theorem download_file_go_size_congr (url : Url) (files : List String) (color : Color)
    (types : Finset String) (mn1 mx1 mn2 mx2 : Option Nat) (env : Nat → HttpResult)
    (retries : Nat)
    (h : ∀ resp, respondCase url files color types mn1 mx1 resp =
      respondCase url files color types mn2 mx2 resp) :
    ∀ (remaining attempt : Nat) (sleeps : List Nat) (done : Nat),
      download_file_go url files color types mn1 mx1 env retries attempt remaining
          sleeps done =
        download_file_go url files color types mn2 mx2 env retries attempt remaining
          sleeps done := by
  intro remaining
  induction remaining with
  | zero => intro a s d; rfl
  | succ r ih =>
    intro a s d
    cases henv : env a with
    | responds resp =>
      rw [download_file_go_responds url files color types mn1 mx1 env retries a r s d resp henv,
        download_file_go_responds url files color types mn2 mx2 env retries a r s d resp henv,
        h resp]
    | raises e =>
      rw [download_file_go_raises url files color types mn1 mx1 env retries a r s d e henv,
        download_file_go_raises url files color types mn2 mx2 env retries a r s d e henv,
        ih (a + 1) (2 ^ a :: s) (d + 1)]

/-- C10: a size bound configured as exactly `0` bytes is not enforced — the
whole `download_file` trace coincides with the trace under an unconfigured
bound, for the minimum and for the maximum alike. -/
theorem zero_size_bound_disabled (url : Url) (files : List String) (color : Color)
    (types : Finset String) (mn mx : Option Nat) (env : Nat → HttpResult) (retries : Nat) :
    download_file url files color types (some 0) mx env retries =
      download_file url files color types none mx env retries ∧
    download_file url files color types mn (some 0) env retries =
      download_file url files color types mn none env retries := by
  constructor
  · exact download_file_go_size_congr url files color types (some 0) mx none mx env retries
      (fun resp => respondCase_min_zero url files color types mx resp) retries 1 [] 0
  · exact download_file_go_size_congr url files color types mn (some 0) mn none env retries
      (fun resp => respondCase_max_zero url files color types mn resp) retries 1 [] 0

/-! ### First-response unfolding and skip-line facts -/

/-- With at least one attempt configured and a response on attempt 1,
`download_file` is one `respondCase` step: no sleeps, one attempt. -/
theorem download_file_first_response (url : Url) (files : List String) (color : Color)
    (types : Finset String) (mn mx : Option Nat) (env : Nat → HttpResult) (retries : Nat)
    (resp : Response) (hr : 1 ≤ retries) (henv : env 1 = HttpResult.responds resp) :
    download_file url files color types mn mx env retries =
      ⟨(respondCase url files color types mn mx resp).1, [], 1,
        (respondCase url files color types mn mx resp).2⟩ := by
  obtain ⟨k, rfl⟩ : ∃ k, retries = k + 1 := ⟨retries - 1, by omega⟩
  show download_file_go url files color types mn mx env (k + 1) 1 (k + 1) [] 0 = _
  rw [download_file_go_responds url files color types mn mx env (k + 1) 1 k [] 0 resp henv]
  rfl

/-- Two strings differing at character index 13 differ. -/
theorem str_ne_of_get13 {s t : String} {a b : Char}
    (hs : s.data[13]? = some a) (ht : t.data[13]? = some b) (hab : a ≠ b) : s ≠ t := by
  intro h
  subst h
  rw [hs] at ht
  exact hab (Option.some.inj ht)

/-- Character 13 of the too-small skip line is `'t'`, whatever the bound and
URL are. -/
theorem tooSmallLine_get13 (m : Nat) (u : Url) :
    (tooSmallLine m u).data[13]? = some 't' := by
  have h : (tooSmallLine m u).data =
      ("[!] Skipped (too small < " : String).data ++
        ((format_size m).data ++ (("): " : String).data ++ u.raw.data)) := by
    change ("[!] Skipped (too small < " : String).data ++ (format_size m).data ++
      ("): " : String).data ++ u.raw.data = _
    simp [List.append_assoc]
  rw [h, List.getElem?_append_left
    (show 13 < ("[!] Skipped (too small < " : String).data.length by decide)]
  decide

/-- Character 13 of the too-large skip line is `'t'`. -/
theorem tooLargeLine_get13 (m : Nat) (u : Url) :
    (tooLargeLine m u).data[13]? = some 't' := by
  have h : (tooLargeLine m u).data =
      ("[!] Skipped (too large > " : String).data ++
        ((format_size m).data ++ (("): " : String).data ++ u.raw.data)) := by
    change ("[!] Skipped (too large > " : String).data ++ (format_size m).data ++
      ("): " : String).data ++ u.raw.data = _
    simp [List.append_assoc]
  rw [h, List.getElem?_append_left
    (show 13 < ("[!] Skipped (too large > " : String).data.length by decide)]
  decide

/-- Character 13 of the no-filename skip line is `'n'`. -/
theorem noFilenameLine_get13 (u : Url) :
    (noFilenameLine u).data[13]? = some 'n' := by
  have h : (noFilenameLine u).data =
      ("[!] Skipped (no filename): " : String).data ++ u.raw.data := rfl
  rw [h, List.getElem?_append_left
    (show 13 < ("[!] Skipped (no filename): " : String).data.length by decide)]
  decide

/-- Character 13 of the disallowed-type skip line is `'n'`. -/
theorem notAllowedLine_get13 (u : Url) :
    (notAllowedLine u).data[13]? = some 'n' := by
  have h : (notAllowedLine u).data =
      ("[!] Skipped (not allowed type): " : String).data ++ u.raw.data := rfl
  rw [h, List.getElem?_append_left
    (show 13 < ("[!] Skipped (not allowed type): " : String).data.length by decide)]
  decide

/-- Python's `x and y` with a falsy conjunction, as a Bool equation. -/
theorem cond_false_of_not_and {b : Bool} {P : Prop} [Decidable P]
    (h : ¬(b = true ∧ P)) : (b && decide P) = false := by
  cases hb : b
  · simp
  · simp only [Bool.true_and, decide_eq_false_iff_not]
    intro hp
    exact h ⟨hb, hp⟩

/-- Past falsy size conditions, `respondCase` never produces a size-skip
line: the remaining branches yield the no-filename line, the
disallowed-type line, or the success tuple, all distinct from both size
lines. -/
theorem respondCase_fst_not_size (url : Url) (files : List String) (color : Color)
    (types : Finset String) (mn mx : Option Nat) (resp : Response)
    (hb1 : (pyTruthy mn && decide (resp.content.length < mn.getD 0)) = false)
    (hb2 : (pyTruthy mx && decide (resp.content.length > mx.getD 0)) = false) :
    ¬ SizeSkipped (respondCase url files color types mn mx resp).1 mn mx url := by
  intro hss
  simp only [SizeSkipped] at hss
  by_cases hf : basename url.path = ""
  · simp [respondCase, hb1, hb2, hf] at hss
    rcases hss with h | h
    · exact str_ne_of_get13 (noFilenameLine_get13 url) (tooSmallLine_get13 _ url)
        (by decide) h
    · exact str_ne_of_get13 (noFilenameLine_get13 url) (tooLargeLine_get13 _ url)
        (by decide) h
  · by_cases ha : allowed_extension (basename url.path) types = true
    · simp [respondCase, hb1, hb2, hf, ha] at hss
    · simp [respondCase, hb1, hb2, hf, ha] at hss
      rcases hss with h | h
      · exact str_ne_of_get13 (notAllowedLine_get13 url) (tooSmallLine_get13 _ url)
          (by decide) h
      · exact str_ne_of_get13 (notAllowedLine_get13 url) (tooLargeLine_get13 _ url)
          (by decide) h

/-! ### C4: size filtering (corrected for falsy zero bounds) -/

/-- C4 (amended): for a task whose first attempt receives a response of body
size `S`, the outcome is Skipped for size reasons iff the minimum is
configured with a nonzero value and `S < min`, or the maximum is configured
with a nonzero value and `S > max`; in particular the boundaries `S = min`
and `S = max` are never size-skipped and filtering proceeds. -/
theorem size_filter_amended (url : Url) (files : List String) (color : Color)
    (types : Finset String) (mn mx : Option Nat) (env : Nat → HttpResult) (retries : Nat)
    (resp : Response) (hr : 1 ≤ retries) (henv : env 1 = HttpResult.responds resp) :
    SizeSkipped (download_file url files color types mn mx env retries).result mn mx url ↔
      (pyTruthy mn = true ∧ resp.content.length < mn.getD 0) ∨
        (pyTruthy mx = true ∧ mx.getD 0 < resp.content.length) := by
  rw [download_file_first_response url files color types mn mx env retries resp hr henv]
  by_cases h1 : (pyTruthy mn && decide (resp.content.length < mn.getD 0)) = true
  · have hres : (respondCase url files color types mn mx resp).1 =
        .str (tooSmallLine (mn.getD 0) url) := by
      simp [respondCase, h1]
    constructor
    · intro _
      exact Or.inl (by simpa [Bool.and_eq_true, decide_eq_true_eq] using h1)
    · intro _
      exact Or.inl hres
  · rw [Bool.not_eq_true] at h1
    by_cases h2 : (pyTruthy mx && decide (resp.content.length > mx.getD 0)) = true
    · have hres : (respondCase url files color types mn mx resp).1 =
          .str (tooLargeLine (mx.getD 0) url) := by
        simp [respondCase, h1, h2]
      constructor
      · intro _
        exact Or.inr (by simpa [Bool.and_eq_true, decide_eq_true_eq] using h2)
      · intro _
        exact Or.inr hres
    · rw [Bool.not_eq_true] at h2
      constructor
      · intro hss
        exact absurd hss (respondCase_fst_not_size url files color types mn mx resp h1 h2)
      · rintro (⟨hp, hlt⟩ | ⟨hp, hlt⟩)
        · have ht : (pyTruthy mn && decide (resp.content.length < mn.getD 0)) = true := by
            simp [hp, hlt]
          rw [ht] at h1
          exact Bool.noConfusion h1
        · have ht : (pyTruthy mx && decide (resp.content.length > mx.getD 0)) = true := by
            simp [hp, hlt]
          rw [ht] at h2
          exact Bool.noConfusion h2

/-- C4 witness: minimum 3, maximum 10, body of 2 bytes on attempt 1 — the
task is size-skipped, and the equivalence is inhabited on both sides. -/
theorem size_filter_amended_witness :
    1 ≤ 3 ∧
    (fun _ : Nat => HttpResult.responds ⟨200, [1, 2]⟩) 1 =
      HttpResult.responds ⟨200, [1, 2]⟩ ∧
    (SizeSkipped
        (download_file ⟨"http://h/f.js", "/f.js"⟩ [] noColor {"*"} (some 3) (some 10)
          (fun _ => HttpResult.responds ⟨200, [1, 2]⟩) 3).result (some 3) (some 10)
        ⟨"http://h/f.js", "/f.js"⟩ ↔
      (pyTruthy (some 3) = true ∧
          (Response.mk 200 [1, 2]).content.length < (some 3).getD 0) ∨
        (pyTruthy (some 10) = true ∧
          (some 10).getD 0 < (Response.mk 200 [1, 2]).content.length)) :=
  ⟨by omega, rfl,
    size_filter_amended ⟨"http://h/f.js", "/f.js"⟩ [] noColor {"*"} (some 3) (some 10)
      (fun _ => HttpResult.responds ⟨200, [1, 2]⟩) 3 ⟨200, [1, 2]⟩ (by omega) rfl⟩

/-- C4 counterexample: with minimum 1 and maximum 0 configured and a 5-byte
body, the claim's rule demands a size skip (5 > 0), but the code downloads
the file: a maximum of 0 is falsy and its check never runs. -/
theorem size_filter_iff_counterexample :
    ¬(SizeSkipped
        (download_file ⟨"http://h/f.js", "/f.js"⟩ [] noColor {"*"} (some 1) (some 0)
          (fun _ => HttpResult.responds ⟨200, [1, 2, 3, 4, 5]⟩) 3).result (some 1) (some 0)
        ⟨"http://h/f.js", "/f.js"⟩ ↔
      (5 < 1 ∨ 0 < 5)) ∧
    isTuple3
      (download_file ⟨"http://h/f.js", "/f.js"⟩ [] noColor {"*"} (some 1) (some 0)
        (fun _ => HttpResult.responds ⟨200, [1, 2, 3, 4, 5]⟩) 3).result = true := by
  constructor
  · decide
  · decide

/-! ### C5: empty final path segment (corrected: size filters run first) -/

/-- C5 (amended): for a URL whose path has no final segment, a task whose
first attempt receives a response whose body passes the configured size
checks produces Skipped "no filename", regardless of the allowed-extension
settings; when the body fails a size check, the size skip takes precedence
instead. -/
theorem no_filename_amended (url : Url) (files : List String) (color : Color)
    (types : Finset String) (mn mx : Option Nat) (env : Nat → HttpResult) (retries : Nat)
    (resp : Response) (hr : 1 ≤ retries) (henv : env 1 = HttpResult.responds resp)
    (hmn : ¬(pyTruthy mn = true ∧ resp.content.length < mn.getD 0))
    (hmx : ¬(pyTruthy mx = true ∧ resp.content.length > mx.getD 0))
    (hpath : basename url.path = "") :
    (download_file url files color types mn mx env retries).result =
      .str (noFilenameLine url) := by
  rw [download_file_first_response url files color types mn mx env retries resp hr henv]
  have hb1 := cond_false_of_not_and hmn
  have hb2 := cond_false_of_not_and hmx
  simp [respondCase, hb1, hb2, hpath]

/-- C5 witness: a path ending in a slash, no size bounds, restrictive
extension set — still "no filename". -/
theorem no_filename_amended_witness :
    1 ≤ 3 ∧
    (fun _ : Nat => HttpResult.responds ⟨200, [7]⟩) 1 = HttpResult.responds ⟨200, [7]⟩ ∧
    ¬(pyTruthy none = true ∧ (Response.mk 200 [7]).content.length < (none : Option Nat).getD 0) ∧
    ¬(pyTruthy none = true ∧ (Response.mk 200 [7]).content.length > (none : Option Nat).getD 0) ∧
    basename (Url.mk "http://example.com/files/" "/files/").path = "" ∧
    (download_file ⟨"http://example.com/files/", "/files/"⟩ [] noColor {"js"} none none
        (fun _ => HttpResult.responds ⟨200, [7]⟩) 3).result =
      .str (noFilenameLine ⟨"http://example.com/files/", "/files/"⟩) :=
  ⟨by omega, rfl, by decide, by decide, by decide,
    no_filename_amended ⟨"http://example.com/files/", "/files/"⟩ [] noColor {"js"} none none
      (fun _ => HttpResult.responds ⟨200, [7]⟩) 3 ⟨200, [7]⟩ (by omega) rfl
      (by decide) (by decide) (by decide)⟩

/-- C5 counterexample: the path `"/"` has no final segment, yet with a
configured minimum of 10 bytes and a 1-byte body the outcome is the
too-small skip, not Skipped "no filename" — the claim's "regardless of the
configured size bounds" fails because the size checks run first. -/
theorem no_filename_counterexample :
    basename (Url.mk "http://example.com/" "/").path = "" ∧
    (download_file ⟨"http://example.com/", "/"⟩ [] noColor {"*"} (some 10) none
        (fun _ => HttpResult.responds ⟨200, [7]⟩) 3).result =
      .str (tooSmallLine 10 ⟨"http://example.com/", "/"⟩) ∧
    (download_file ⟨"http://example.com/", "/"⟩ [] noColor {"*"} (some 10) none
        (fun _ => HttpResult.responds ⟨200, [7]⟩) 3).result ≠
      .str (noFilenameLine ⟨"http://example.com/", "/"⟩) := by
  refine ⟨by decide, by decide, by decide⟩

/-! ### C6: extension filtering (corrected: splitext, not last-dot) -/

/-- C6 (amended): for a non-wildcard allowed set and a response passing the
size checks with a nonempty derived filename, a filename whose
`os.path.splitext` extension — lowercased, without the dot, and empty when
the filename's only leading dots precede no earlier non-dot character (e.g.
`".bashrc"`) — is not a member of the set yields Skipped "not allowed type";
matching is case-insensitive in the filename's extension. -/
theorem extension_filter_amended (url : Url) (files : List String) (color : Color)
    (types : Finset String) (mn mx : Option Nat) (env : Nat → HttpResult) (retries : Nat)
    (resp : Response) (hr : 1 ≤ retries) (henv : env 1 = HttpResult.responds resp)
    (hmn : ¬(pyTruthy mn = true ∧ resp.content.length < mn.getD 0))
    (hmx : ¬(pyTruthy mx = true ∧ resp.content.length > mx.getD 0))
    (hty : types ≠ {"*"})
    (hname : basename url.path ≠ "")
    (hext : fileExt (basename url.path) ∉ types) :
    (download_file url files color types mn mx env retries).result =
      .str (notAllowedLine url) := by
  rw [download_file_first_response url files color types mn mx env retries resp hr henv]
  have hb1 := cond_false_of_not_and hmn
  have hb2 := cond_false_of_not_and hmx
  have hae : allowed_extension (basename url.path) types = false := by
    simp [allowed_extension, hty, hext]
  simp [respondCase, hb1, hb2, hname, hae]

/-- C6 witness: uppercase extension `PNG` against the set containing only
`js` is skipped as a disallowed type (matching lowercases the filename's
extension). -/
theorem extension_filter_amended_witness :
    1 ≤ 3 ∧
    (fun _ : Nat => HttpResult.responds ⟨200, [7]⟩) 1 = HttpResult.responds ⟨200, [7]⟩ ∧
    ¬(pyTruthy none = true ∧ (Response.mk 200 [7]).content.length < (none : Option Nat).getD 0) ∧
    ¬(pyTruthy none = true ∧ (Response.mk 200 [7]).content.length > (none : Option Nat).getD 0) ∧
    ({"js"} : Finset String) ≠ {"*"} ∧
    basename (Url.mk "http://h/A.PNG" "/A.PNG").path ≠ "" ∧
    fileExt (basename (Url.mk "http://h/A.PNG" "/A.PNG").path) ∉ ({"js"} : Finset String) ∧
    (download_file ⟨"http://h/A.PNG", "/A.PNG"⟩ [] noColor {"js"} none none
        (fun _ => HttpResult.responds ⟨200, [7]⟩) 3).result =
      .str (notAllowedLine ⟨"http://h/A.PNG", "/A.PNG"⟩) :=
  ⟨by omega, rfl, by decide, by decide, by decide, by decide, by decide,
    extension_filter_amended ⟨"http://h/A.PNG", "/A.PNG"⟩ [] noColor {"js"} none none
      (fun _ => HttpResult.responds ⟨200, [7]⟩) 3 ⟨200, [7]⟩ (by omega) rfl
      (by decide) (by decide) (by decide) (by decide) (by decide)⟩

/-- C6 counterexample: the filename `".bashrc"` has `"bashrc"` after its
last dot, which is not in the (reachable, non-wildcard) allowed set
containing only the empty string — the claim demands Skipped — yet the code
computes the `splitext` extension `""`, finds it in the set, and downloads
the file. -/
theorem extension_claim_counterexample :
    specExtAfterLastDot ".bashrc" = "bashrc" ∧
    specExtAfterLastDot ".bashrc" ∉ ({""} : Finset String) ∧
    ({""} : Finset String) ≠ {"*"} ∧
    basename (Url.mk "http://example.com/.bashrc" "/.bashrc").path = ".bashrc" ∧
    isTuple3
      (download_file ⟨"http://example.com/.bashrc", "/.bashrc"⟩ [] noColor {""} none none
        (fun _ => HttpResult.responds ⟨200, [1, 2]⟩) 3).result = true := by
  refine ⟨by decide, by decide, by decide, by decide, by decide⟩

/-! ### C1 and C3: the result-draining loop crashes on non-Success outcomes -/

/-- C1: a run containing a Skipped outcome does not log it, display it, or
render a report — `download_file` returns a bare skip string for it, and
`main`'s `result, status, size = future.result()` raises `ValueError` on
that string, aborting the drain loop before the log write and the report. -/
theorem skipped_outcome_crashes_run :
    (download_file ⟨"http://example.com/", "/"⟩ [] noColor {"js"} none none
        (fun _ => HttpResult.responds ⟨200, [1]⟩) 3).result =
      .str "[!] Skipped (no filename): http://example.com/" ∧
    isError
      (processResults [.str "[!] Skipped (no filename): http://example.com/"]) = true ∧
    isError
      (processResults
        [.str "[✗] Failed to download http://example.com/ after 3 attempt(s): timeout"]) =
      true := by
  refine ⟨by decide, by decide, by decide⟩

/-- C3: on Success-only outcome sequences the totals sum over exactly the
Success outcomes with status 200 and positive size, and a 201 Success stays
in the rendered success list while adding nothing to either total; but as
soon as the consumed sequence contains a Skipped outcome the drain loop
raises while unpacking it, and no aggregate or rendered list is produced at
all. -/
theorem aggregate_totals_and_crash :
    processResults
        [.tuple3 "[✓] a.js → 200 (500.0 B)  (http://h/a.js)" 200 500,
          .tuple3 "[✓] b.js → 201 (5.0 B)  (http://h/b.js)" 201 5] =
      .ok
        ⟨["[✓] a.js → 200 (500.0 B)  (http://h/a.js)",
            "[✓] b.js → 201 (5.0 B)  (http://h/b.js)"],
          ["[✓] a.js → 200 (500.0 B)  (http://h/a.js)\n",
            "[✓] b.js → 201 (5.0 B)  (http://h/b.js)\n"],
          1, 500⟩ ∧
    successesOf
        ["[✓] a.js → 200 (500.0 B)  (http://h/a.js)",
          "[✓] b.js → 201 (5.0 B)  (http://h/b.js)"] =
      ["[✓] a.js → 200 (500.0 B)  (http://h/a.js)",
        "[✓] b.js → 201 (5.0 B)  (http://h/b.js)"] ∧
    isError
      (processResults
        [.tuple3 "[✓] b.js → 201 (5.0 B)  (http://h/b.js)" 201 5,
          .str "[!] Skipped (no filename): http://c/"]) = true := by
  refine ⟨rfl, by decide, by decide⟩
